import Mathlib

/-!
Shallow embedding of the memory subsystem of the `crux` repository:
the virtual-memory arena allocator (`src/rt/mem.rs`) and the
index-width-parameterized growable buffer `SizedVec`
(`src/data_structures/sized_vec.rs`), together with theorems checking the
specification's claims against these definitions.

Modelling conventions:
* `MemoryAmount` is a `Nat` byte count; pointers are `Nat` addresses.
* OS calls (reserve / commit) and allocator calls that can fail are given an
  explicit `Bool` success flag; `Result` becomes `Except`.
* The raw heap block behind a `SizedVec` is modelled as `allocSize`
  (the number of slots of the current allocation) together with
  `data : Nat → Option α` (`none` = uninitialized slot).
* Index arithmetic of the index type `S` is arithmetic modulo `smax + 1`
  where `smax` is `S::MAX` (release-mode wrapping semantics).
-/

set_option maxRecDepth 8000

namespace Crux

/-- A reserved span of virtual address space (`ReservedMemory` in
`src/rt/mem.rs`): a base pointer and a byte amount. -/
structure ReservedMemory where
  base_ptr : Nat
  amount : Nat
deriving Repr, DecidableEq

/-- `ReservedMemory::select(offset, len)`: checks
`base + offset + len <= base + amount` and returns the sub-region
starting at `base + offset` of size `len`. -/
def ReservedMemory.select (r : ReservedMemory) (offset len : Nat) :
    Except Unit ReservedMemory :=
  let selected_end := r.base_ptr + (offset + len)
  let region_end := r.base_ptr + r.amount
  if selected_end ≤ region_end then
    .ok { base_ptr := r.base_ptr + offset, amount := len }
  else
    .error ()

/-- `ArenaCheckpoint`: a saved `used` amount of an arena. -/
structure ArenaCheckpoint where
  amount : Nat
deriving Repr, DecidableEq

/-- Error cases of `VirtualMemoryArena::new_preallocate`. -/
inductive ArenaPreallocationError where
  | Reserve
  | Commit
  | PreallocatedMemoryTooLarge
deriving Repr, DecidableEq

/-- The bump arena (`VirtualMemoryArena` in `src/rt/mem.rs`):
one reservation plus the `committed` and `used` byte counters. -/
structure VirtualMemoryArena where
  reserved : ReservedMemory
  committed : Nat
  used : Nat
deriving Repr, DecidableEq

namespace VirtualMemoryArena

/-- `VirtualMemoryArena::new(to_reserve)`: reserve without committing.
`base` is the address the OS reservation returned; `reserveOk` models
whether the OS reservation succeeded. -/
def new (base to_reserve : Nat) (reserveOk : Bool) :
    Except Unit VirtualMemoryArena :=
  if reserveOk then
    .ok { reserved := { base_ptr := base, amount := to_reserve },
          committed := 0, used := 0 }
  else
    .error ()

/-- `VirtualMemoryArena::new_preallocate(to_reserve, to_commit)`:
reserve, select the prefix of size `to_commit`, commit it.
`reserveOk` / `commitOk` model the two OS calls. -/
def new_preallocate (base to_reserve to_commit : Nat)
    (reserveOk commitOk : Bool) :
    Except ArenaPreallocationError VirtualMemoryArena :=
  if reserveOk then
    let reserved : ReservedMemory := { base_ptr := base, amount := to_reserve }
    match reserved.select 0 to_commit with
    | .error _ => .error .PreallocatedMemoryTooLarge
    | .ok _to_preallocate =>
      if commitOk then
        .ok { reserved := reserved, committed := to_commit, used := 0 }
      else
        .error .Commit
  else
    .error .Reserve

/-- `VirtualMemoryArena::checkpoint()`: wraps the current `used`. -/
def checkpoint (a : VirtualMemoryArena) : ArenaCheckpoint :=
  { amount := a.used }

/-- `VirtualMemoryArena::restore_checkpoint(cp)`: sets `used` back to the
checkpointed amount. -/
def restore_checkpoint (a : VirtualMemoryArena) (cp : ArenaCheckpoint) :
    VirtualMemoryArena :=
  { a with used := cp.amount }

/-- `VirtualMemoryArena::split(amount)`: selects the sub-region
`[used, used + amount)` of the reservation as the child's reservation and
gives the child `committed - used` committed bytes and `used = 0`.
The parent (`self`, taken by shared reference) is not modified. -/
def split (a : VirtualMemoryArena) (amount : Nat) :
    Except Unit VirtualMemoryArena :=
  let commited := a.committed
  let used := a.used
  match a.reserved.select used amount with
  | .error e => .error e
  | .ok r =>
    .ok { reserved := r, committed := commited - used, used := 0 }

/-- `<VirtualMemoryArena as Allocator>::allocate(layout)` where `n` is the
layout's byte size: if `committed - used < n`, select
`[committed, committed + diff)` with `diff = n - (committed - used)` and
commit it (`commitOk` models the OS commit call), advancing `committed`;
then return the pointer `base_ptr + used` and advance `used` by `n`. -/
def allocate (a : VirtualMemoryArena) (n : Nat) (commitOk : Bool) :
    Except Unit (VirtualMemoryArena × Nat) :=
  let committed := a.committed
  let used := a.used
  let available := committed - used
  let needed := n
  if available < needed then
    let diff := needed - available
    match a.reserved.select committed diff with
    | .error _ => .error ()
    | .ok _to_commit =>
      if commitOk then
        .ok ({ a with committed := committed + diff, used := used + needed },
          a.reserved.base_ptr + used)
      else
        .error ()
  else
    .ok ({ a with used := used + needed }, a.reserved.base_ptr + used)

/-- The arena invariant stated by the spec:
`used <= committed <= reserved.amount` (the `0 <=` parts are implicit in
`Nat`). -/
def Inv (a : VirtualMemoryArena) : Prop :=
  a.used ≤ a.committed ∧ a.committed ≤ a.reserved.amount

instance (a : VirtualMemoryArena) : Decidable (Inv a) := by
  unfold Inv; infer_instance

end VirtualMemoryArena

/-- Error cases of `SizedVec::reallocate_with_capacity`. -/
inductive SizedVecReallocError where
  | CannotShrink
  | ReallocationFailed
deriving Repr, DecidableEq

/-- Error cases of `SizedVec::reserve_additional_capacity` and
`SizedVec::ensure_additional_capacity`. -/
inductive SizedVecGrowthError where
  | ReallocationFailed
  | MaxPossibleCapacity
deriving Repr, DecidableEq

/-- The growable buffer (`SizedVec<T, S, A>` in
`src/data_structures/sized_vec.rs`).  `capacity` and `len` are the struct's
`S`-typed fields (values in `[0, smax]`); the raw allocation behind
`base_ptr` is modelled by its slot count `allocSize` and its contents
`data` (`none` = uninitialized slot). -/
structure SizedVec (α : Type) where
  capacity : Nat
  len : Nat
  allocSize : Nat
  data : Nat → Option α

namespace SizedVec

/-- `SizedVec::new()` / `with_allocator`: capacity 0, length 0, dangling
(empty) allocation. -/
def new {α : Type} : SizedVec α :=
  { capacity := 0, len := 0, allocSize := 0, data := fun _ => none }

/-- `SizedVec::BASE_ALLOC_COUNT`: 8 slots for 1-byte elements, 4 for
elements smaller than 1024 bytes, otherwise 1. -/
def baseAllocCount (sizeOfT : Nat) : Nat :=
  if sizeOfT = 1 then 8 else if sizeOfT < 1024 then 4 else 1

/-- `SizedVec::remaining_capacity()`: `capacity - len`. -/
def remaining_capacity {α : Type} (v : SizedVec α) : Nat :=
  v.capacity - v.len

/-- `SizedVec::get(idx)`: bounds-check `idx < len`, then read the slot. -/
def get {α : Type} (v : SizedVec α) (idx : Nat) : Option α :=
  if idx < v.len then v.data idx else none

/-- Write the elements of `items` into consecutive slots starting at
`start` (the `ptr::copy_nonoverlapping` of `extend_slice_unchecked`). -/
def writeSeq {α : Type} (d : Nat → Option α) (start : Nat) (items : List α) :
    Nat → Option α :=
  match items with
  | [] => d
  | b :: bs => writeSeq (fun j => if j = start then some b else d j) (start + 1) bs

/-- `SizedVec::extend_slice_unchecked(slice)`: raw-copies `slice` to slots
`[len, len + slice.len)` and adds `slice.len` to `len` (index arithmetic of
`S` is modulo `smax + 1`). -/
def extend_slice_unchecked {α : Type} (smax : Nat) (v : SizedVec α)
    (slice : List α) : SizedVec α :=
  { v with
    data := writeSeq v.data v.len slice,
    len := (v.len + slice.length) % (smax + 1) }

/-- `SizedVec::try_push(item)`: when `len == capacity`, either allocate the
base block (capacity 0), fail at `capacity == S::MAX`, or `grow` the
allocation to `capacity.saturating_mul(2)` slots; then write `item` at slot
`len` and increment `len`.  The allocator calls inside `try_push` are
`unwrap`ped in the source, so they are modelled as succeeding.  Note that
the source never assigns `self.capacity` here. -/
def tryPush {α : Type} (smax baseAlloc : Nat) (v : SizedVec α) (item : α) :
    Except Unit (SizedVec α) :=
  if v.len = v.capacity then
    if v.capacity = 0 then
      let v1 : SizedVec α := { v with allocSize := baseAlloc, data := fun _ => none }
      .ok { v1 with
        data := fun j => if j = v1.len then some item else v1.data j,
        len := (v1.len + 1) % (smax + 1) }
    else if v.capacity = smax then
      .error ()
    else
      let v1 : SizedVec α := { v with allocSize := min (v.capacity * 2) smax }
      .ok { v1 with
        data := fun j => if j = v1.len then some item else v1.data j,
        len := (v1.len + 1) % (smax + 1) }
  else
    .ok { v with
      data := fun j => if j = v.len then some item else v.data j,
      len := (v.len + 1) % (smax + 1) }

/-- Iterate `try_push` of the same `item` `n` times, stopping at the first
error. -/
def pushMany {α : Type} (smax baseAlloc : Nat) (v : SizedVec α) (item : α) :
    Nat → Except Unit (SizedVec α)
  | 0 => .ok v
  | n + 1 =>
    match pushMany smax baseAlloc v item n with
    | .ok v1 => tryPush smax baseAlloc v1 item
    | .error e => .error e

/-- `SizedVec::reallocate_with_capacity(count)`: no-op when `count` equals
`capacity`; grows (fresh `allocate` when `capacity == 0`, otherwise `grow`)
when `count` is larger; shrinks when `len < count < capacity`; rejects
shrinking below `len`.  `aOk` models whether the allocator call succeeds.
Note that the source never assigns `self.capacity` here either. -/
def reallocate_with_capacity {α : Type} (v : SizedVec α) (count : Nat)
    (aOk : Bool) : Except SizedVecReallocError (SizedVec α) :=
  if v.capacity = count then
    .ok v
  else if v.capacity < count then
    if v.capacity = 0 then
      if aOk then .ok { v with allocSize := count, data := fun _ => none }
      else .error .ReallocationFailed
    else
      if aOk then .ok { v with allocSize := count }
      else .error .ReallocationFailed
  else if v.len < count then
    if aOk then .ok { v with allocSize := count }
    else .error .ReallocationFailed
  else
    .error .CannotShrink

/-- `SizedVec::reserve_additional_capacity(count)`:
`capacity.checked_add(count)` (overflow of `S` means exceeding `smax`),
then `reallocate_with_capacity`.  The `CannotShrink` arm is
`unreachable!()` in the source (the requested capacity is never below
`capacity`); it is mapped to an error to keep the function total. -/
def reserve_additional_capacity {α : Type} (smax : Nat) (v : SizedVec α)
    (count : Nat) (aOk : Bool) : Except SizedVecGrowthError (SizedVec α) :=
  if v.capacity + count ≤ smax then
    match reallocate_with_capacity v (v.capacity + count) aOk with
    | .ok v1 => .ok v1
    | .error .CannotShrink => .error .ReallocationFailed
    | .error .ReallocationFailed => .error .ReallocationFailed
  else
    .error .MaxPossibleCapacity

/-- `SizedVec::ensure_additional_capacity(count)` exactly as written in the
source: `if self.remaining_capacity() <= count { Ok(()) } else {
self.reserve_additional_capacity(count) }`. -/
def ensure_additional_capacity {α : Type} (smax : Nat) (v : SizedVec α)
    (count : Nat) (aOk : Bool) : Except SizedVecGrowthError (SizedVec α) :=
  if remaining_capacity v ≤ count then
    .ok v
  else
    reserve_additional_capacity smax v count aOk

/-- `<SizedVec<u8> as Writer>::write(bytes)`: `ensure_additional_capacity`
for `bytes.len()` elements; on success raw-copy all of `bytes`; on error
raw-copy `bytes[..remaining_capacity]` and report the error.  The result is
`none` when the Rust code would panic (the slice index
`bytes[..available]` with `available > bytes.len()`). -/
def write {α : Type} (smax : Nat) (v : SizedVec α) (bytes : List α)
    (aOk : Bool) : Option (SizedVec α × Except SizedVecGrowthError Nat) :=
  let len := bytes.length
  match ensure_additional_capacity smax v len aOk with
  | .error err =>
    let available := remaining_capacity v
    if available ≤ bytes.length then
      some (extend_slice_unchecked smax v (bytes.take available), .error err)
    else
      none
  | .ok v1 => some (extend_slice_unchecked smax v1 bytes, .ok len)

/-- `<Range<S> as SizedVecIndexOp>::index_unchecked(start..stop)`: the raw
slice of `stop - start` slots starting at slot `start`. -/
def rangeIndexUnchecked {α : Type} (v : SizedVec α) (start stop : Nat) :
    List (Option α) :=
  (List.range (stop - start)).map (fun i => v.data (start + i))

/-- `SizedVec::get_range(start..stop)` for an exclusive-end range, exactly
as in the source: `if self.end < vec.len()` then the unchecked slice, else
`None`. -/
def get_range {α : Type} (v : SizedVec α) (start stop : Nat) :
    Option (List (Option α)) :=
  if stop < v.len then some (rangeIndexUnchecked v start stop) else none

end SizedVec

/-!
## Theorems about the claims
-/

/-- C1: the spec claims `0 <= len <= capacity` holds at all times under
push operations.  The code never assigns `self.capacity` in `try_push`, so
already after one `try_push` on a fresh buffer `len = 1 > capacity = 0`:
the invariant is violated. -/
theorem c1_push_violates_len_le_capacity :
    ∃ v : SizedVec Nat,
      SizedVec.tryPush (2 ^ 64 - 1) 8 SizedVec.new 0 = .ok v ∧
      v.capacity < v.len :=
  ⟨_, rfl, by decide⟩

/-- C2: the spec claims that writing 2000 bytes into a buffer with 100
bytes of remaining capacity under a growth-failing allocator writes exactly
100 bytes and reports the growth error.  Because
`ensure_additional_capacity` has its comparison inverted, `write` instead
reports success (`Ok 2000`) and raw-copies all 2000 bytes, leaving
`len = 2100` far beyond `capacity = 200` (a buffer overrun). -/
theorem c2_write_overruns_capacity :
    ∃ v : SizedVec Nat,
      SizedVec.write (2 ^ 64 - 1)
        (⟨200, 100, 200, fun _ => none⟩ : SizedVec Nat)
        (List.replicate 2000 7) false = some (v, .ok 2000) ∧
      v.len = 2100 ∧ v.capacity = 200 := by
  refine ⟨SizedVec.extend_slice_unchecked (2 ^ 64 - 1)
      (⟨200, 100, 200, fun _ => none⟩ : SizedVec Nat)
      (List.replicate 2000 7), ?_, ?_, rfl⟩
  · simp [SizedVec.write, SizedVec.ensure_additional_capacity,
      SizedVec.remaining_capacity]
  · simp only [SizedVec.extend_slice_unchecked, List.length_replicate]
    norm_num [Nat.mod_eq_of_lt]

/-- C3: the spec claims `ensure_additional_capacity(n)` is a no-op when the
headroom suffices and otherwise reallocates.  The source tests
`remaining_capacity() <= count` instead of `count <= remaining_capacity()`:
on a fresh buffer (no headroom) `ensure(1)` is a no-op returning `Ok`, and
on a buffer with headroom 10 `ensure(1)` performs a reallocation (to 11
slots). -/
theorem c3_ensure_additional_capacity_inverted :
    SizedVec.ensure_additional_capacity (2 ^ 64 - 1)
        (SizedVec.new (α := Nat)) 1 true = .ok SizedVec.new ∧
    SizedVec.remaining_capacity (SizedVec.new (α := Nat)) = 0 ∧
    (SizedVec.ensure_additional_capacity (2 ^ 64 - 1)
        (⟨10, 0, 10, fun _ => none⟩ : SizedVec Nat) 1 true).map
      SizedVec.allocSize = .ok 11 :=
  ⟨rfl, rfl, rfl⟩

/-- C6: the spec claims pushing to a full buffer of capacity `C > 0` yields
a new capacity `>= 2 * C`.  `try_push` grows the raw allocation to `2 * C`
slots but never assigns `self.capacity`, so after the push
`capacity() = C = 4`, not `>= 8` (the prior elements are preserved). -/
theorem c6_full_push_does_not_double_capacity :
    ∃ v : SizedVec Nat,
      SizedVec.tryPush 255 4
        (⟨4, 4, 4, fun i => if i < 4 then some (10 + i) else none⟩ :
          SizedVec Nat) 99 = .ok v ∧
      v.capacity = 4 ∧ v.len = 5 ∧ v.allocSize = 8 ∧ ¬ 2 * 4 ≤ v.capacity ∧
      v.data 0 = some 10 ∧ v.data 3 = some 13 ∧ v.data 4 = some 99 :=
  ⟨_, rfl, by decide⟩

/-- C7: the spec claims that with index type `u8` the 256th push fails with
a capacity-overflow error and `len` never wraps.  Because `try_push` never
assigns `self.capacity`, the `capacity == S::MAX` guard is unreachable: all
256 pushes return `Ok` and on the 256th the `u8` length wraps from 255 to
0. -/
theorem c7_u8_len_wraps_to_zero :
    (SizedVec.pushMany 255 8 (SizedVec.new (α := Nat)) 0 255).map
      SizedVec.len = .ok 255 ∧
    (SizedVec.pushMany 255 8 (SizedVec.new (α := Nat)) 0 256).map
      SizedVec.len = .ok 0 :=
  ⟨rfl, rfl⟩

/-- C4: the spec claims `0 <= used <= committed <= reserved.amount` after
every operation, including for the child arena returned by `split`.  On an
arena reachable by `new_preallocate(100, 50)` (so `committed = 50`,
`used = 0`), `split(10)` returns a child whose reservation is 10 bytes but
whose `committed` is `committed - used = 50`: the invariant fails for the
child because `split` does not cap the transferred commitment at the split
amount. -/
theorem c4_split_child_violates_invariant :
    ∃ a c : VirtualMemoryArena,
      VirtualMemoryArena.new_preallocate 0 100 50 true true = .ok a ∧
      a.split 10 = .ok c ∧
      a.Inv ∧ c.committed = 50 ∧ c.reserved.amount = 10 ∧ ¬ c.Inv :=
  ⟨_, _, rfl, rfl, by decide, rfl, rfl, by decide⟩

/-- C5: the spec claims that after a successful `split(amount)` every
subsequent allocation in the parent lies before the split point, never
overlapping the child.  `split` does not advance the parent's `used`, so
the parent's very next allocation returns a pointer equal to the child's
base address, inside the child's reservation. -/
theorem c5_parent_allocation_overlaps_split_child :
    ∃ p c p1 : VirtualMemoryArena, ∃ ptr : Nat,
      VirtualMemoryArena.new 0 100 true = .ok p ∧
      p.split 10 = .ok c ∧
      p.allocate 1 true = .ok (p1, ptr) ∧
      ptr = c.reserved.base_ptr ∧
      c.reserved.base_ptr ≤ ptr ∧
      ptr < c.reserved.base_ptr + c.reserved.amount :=
  ⟨_, _, _, _, rfl, rfl, rfl, rfl, by decide, by decide⟩

/-- C8: `allocate(n)` leaves `committed` unchanged when the committed
headroom `committed - used` already covers `n`; otherwise it commits
exactly the shortfall `n - (committed - used)` and advances `committed` by
it; in both cases the returned pointer is `base_ptr + used` and `used`
advances by `n`.  In particular a fresh arena (`committed = 0`) allocating
`n <= reserved.amount` succeeds (commit succeeding) and ends with
`committed >= n`. -/
theorem c8_allocate_exact_shortfall (a : VirtualMemoryArena) (n : Nat)
    (h1 : a.used ≤ a.committed) (h2 : a.committed ≤ a.reserved.amount)
    (h3 : a.used + n ≤ a.reserved.amount) :
    (n ≤ a.committed - a.used →
      a.allocate n true =
        .ok ({ a with used := a.used + n }, a.reserved.base_ptr + a.used)) ∧
    (a.committed - a.used < n →
      a.allocate n true =
        .ok ({ a with
            committed := a.committed + (n - (a.committed - a.used)),
            used := a.used + n },
          a.reserved.base_ptr + a.used)) ∧
    (a.committed = 0 → ∃ a1 ptr,
      a.allocate n true = .ok (a1, ptr) ∧ n ≤ a1.committed) := by
  refine ⟨?_, ?_, ?_⟩
  · intro h
    simp only [VirtualMemoryArena.allocate]
    rw [if_neg (by omega)]
  · intro h
    simp only [VirtualMemoryArena.allocate, ReservedMemory.select]
    rw [if_pos h, if_pos (by omega)]
    rfl
  · intro h
    by_cases hlt : a.committed - a.used < n
    · refine ⟨{ a with
          committed := a.committed + (n - (a.committed - a.used)),
          used := a.used + n },
        a.reserved.base_ptr + a.used, ?_, ?_⟩
      · simp only [VirtualMemoryArena.allocate, ReservedMemory.select]
        rw [if_pos hlt, if_pos (by omega)]
        rfl
      · show n ≤ a.committed + (n - (a.committed - a.used))
        omega
    · refine ⟨{ a with used := a.used + n },
        a.reserved.base_ptr + a.used, ?_, ?_⟩
      · simp only [VirtualMemoryArena.allocate]
        rw [if_neg (by omega)]
      · show n ≤ a.committed
        omega

/-- Witness for `c8_allocate_exact_shortfall` at the concrete arena
`(reserved = 100, committed = 20, used = 5)` and `n = 10` (the headroom of
15 committed bytes covers the request, so no commit happens). -/
theorem c8_allocate_exact_shortfall_witness :
    (⟨⟨0, 100⟩, 20, 5⟩ : VirtualMemoryArena).used ≤ 20 ∧
    20 ≤ 100 ∧ 5 + 10 ≤ 100 ∧
    VirtualMemoryArena.allocate ⟨⟨0, 100⟩, 20, 5⟩ 10 true =
      .ok (⟨⟨0, 100⟩, 20, 15⟩, 5) :=
  ⟨by decide, by decide, by decide,
    (c8_allocate_exact_shortfall ⟨⟨0, 100⟩, 20, 5⟩ 10
        (by decide) (by decide) (by decide)).1 (by decide)⟩

/-- C9: after `cp = checkpoint(); allocate(X); restore_checkpoint(cp)`, the
`used` counter equals exactly the checkpointed value, and a second
`allocate(X)` (whatever the OS commit flag, since the span is already
committed) returns the identical starting pointer `base_ptr + used` as the
first call. -/
theorem c9_checkpoint_restore_roundtrip (a : VirtualMemoryArena) (X : Nat)
    (h1 : a.used ≤ a.committed) (h2 : a.committed ≤ a.reserved.amount)
    (h3 : a.used + X ≤ a.reserved.amount) :
    ∃ a1 ptr,
      a.allocate X true = .ok (a1, ptr) ∧
      ptr = a.reserved.base_ptr + a.used ∧
      (a1.restore_checkpoint a.checkpoint).used = a.checkpoint.amount ∧
      a.checkpoint.amount = a.used ∧
      ∀ b2 : Bool, ∃ a2,
        (a1.restore_checkpoint a.checkpoint).allocate X b2 =
          .ok (a2, ptr) := by
  by_cases hlt : a.committed - a.used < X
  · refine ⟨{ a with
        committed := a.committed + (X - (a.committed - a.used)),
        used := a.used + X },
      a.reserved.base_ptr + a.used, ?_, rfl, rfl, rfl, ?_⟩
    · simp only [VirtualMemoryArena.allocate, ReservedMemory.select]
      rw [if_pos hlt, if_pos (by omega)]
      rfl
    · intro b2
      refine ⟨{ reserved := a.reserved,
                committed := a.committed + (X - (a.committed - a.used)),
                used := a.used + X }, ?_⟩
      show VirtualMemoryArena.allocate
        { reserved := a.reserved,
          committed := a.committed + (X - (a.committed - a.used)),
          used := a.used } X b2 = _
      simp only [VirtualMemoryArena.allocate]
      rw [if_neg (by omega)]
  · refine ⟨{ a with used := a.used + X },
      a.reserved.base_ptr + a.used, ?_, rfl, rfl, rfl, ?_⟩
    · simp only [VirtualMemoryArena.allocate]
      rw [if_neg (by omega)]
    · intro b2
      refine ⟨{ reserved := a.reserved, committed := a.committed,
                used := a.used + X }, ?_⟩
      show VirtualMemoryArena.allocate
        { reserved := a.reserved, committed := a.committed,
          used := a.used } X b2 = _
      simp only [VirtualMemoryArena.allocate]
      rw [if_neg (by omega)]

/-- Witness for `c9_checkpoint_restore_roundtrip` at the fresh arena
`(reserved = 100, committed = 0, used = 0)` and `X = 10`. -/
theorem c9_checkpoint_restore_roundtrip_witness :
    (⟨⟨0, 100⟩, 0, 0⟩ : VirtualMemoryArena).used ≤ 0 ∧
    (0 : Nat) ≤ 100 ∧ 0 + 10 ≤ 100 ∧
    (∃ a1 ptr,
      VirtualMemoryArena.allocate ⟨⟨0, 100⟩, 0, 0⟩ 10 true = .ok (a1, ptr) ∧
      ptr = (0 : Nat) + 0 ∧
      (a1.restore_checkpoint
          (VirtualMemoryArena.checkpoint ⟨⟨0, 100⟩, 0, 0⟩)).used =
        (VirtualMemoryArena.checkpoint ⟨⟨0, 100⟩, 0, 0⟩).amount ∧
      (VirtualMemoryArena.checkpoint ⟨⟨0, 100⟩, 0, 0⟩).amount = 0 ∧
      ∀ b2 : Bool, ∃ a2,
        (a1.restore_checkpoint
            (VirtualMemoryArena.checkpoint ⟨⟨0, 100⟩, 0, 0⟩)).allocate 10 b2 =
          .ok (a2, ptr)) :=
  ⟨by decide, by decide, by decide,
    c9_checkpoint_restore_roundtrip ⟨⟨0, 100⟩, 0, 0⟩ 10
      (by decide) (by decide) (by decide)⟩

/-- C10 counterexample: the claim says `get_range(a..b)` returns `Some`
whenever `b <= len`, including the full range; the source checks
`self.end < vec.len()`, so on a buffer of length 1 the full range `0..1`
returns `None`. -/
theorem c10_full_range_returns_none :
    SizedVec.get_range
      (⟨8, 1, 8, fun i => if i = 0 then some 42 else none⟩ : SizedVec Nat)
      0 1 = none ∧
    1 ≤ (⟨8, 1, 8, fun i => if i = 0 then some 42 else none⟩ :
      SizedVec Nat).len :=
  ⟨rfl, by decide⟩

/-- C10 (amended): for `a <= b`, the checked `get_range(a..b)` returns
`Some` of the contiguous slice of the `b - a` slots at positions `[a, b)`
(each equal to what `get` returns there) exactly when `b < len` (strictly),
and returns `None` exactly when `b >= len`. -/
theorem c10_get_range_amended {α : Type} (v : SizedVec α) (a b : Nat)
    (hab : a ≤ b) :
    (b < v.len → ∃ l, SizedVec.get_range v a b = some l ∧
      l.length = b - a ∧
      ∀ i, i < b - a → l.get? i = some (v.get (a + i))) ∧
    (v.len ≤ b → SizedVec.get_range v a b = none) := by
  constructor
  · intro hb
    refine ⟨SizedVec.rangeIndexUnchecked v a b, ?_, ?_, ?_⟩
    · simp [SizedVec.get_range, hb]
    · simp [SizedVec.rangeIndexUnchecked]
    · intro i hi
      simp only [SizedVec.rangeIndexUnchecked, List.get?_map,
        List.get?_range hi, Option.map_some']
      simp only [SizedVec.get]
      rw [if_pos (by omega)]
  · intro hb
    simp only [SizedVec.get_range]
    rw [if_neg (by omega)]

/-- Witness for `c10_get_range_amended` on a concrete buffer of length 2
with the range `0..1`. -/
theorem c10_get_range_amended_witness :
    (0 : Nat) ≤ 1 ∧
    ((1 < (⟨8, 2, 8, fun i => if i < 2 then some (30 + i) else none⟩ :
        SizedVec Nat).len →
      ∃ l, SizedVec.get_range
          (⟨8, 2, 8, fun i => if i < 2 then some (30 + i) else none⟩ :
            SizedVec Nat) 0 1 = some l ∧
        l.length = 1 - 0 ∧
        ∀ i, i < 1 - 0 → l.get? i = some
          ((⟨8, 2, 8, fun i => if i < 2 then some (30 + i) else none⟩ :
            SizedVec Nat).get (0 + i))) ∧
    ((⟨8, 2, 8, fun i => if i < 2 then some (30 + i) else none⟩ :
        SizedVec Nat).len ≤ 1 →
      SizedVec.get_range
        (⟨8, 2, 8, fun i => if i < 2 then some (30 + i) else none⟩ :
          SizedVec Nat) 0 1 = none)) :=
  ⟨by decide,
    c10_get_range_amended
      (⟨8, 2, 8, fun i => if i < 2 then some (30 + i) else none⟩ :
        SizedVec Nat) 0 1 (by decide)⟩

end Crux
